import Mathlib

/-!
Verification of `opentelemetry-instrument-openai-py`
(`src/opentelemetry/instrumentation/openai/__init__.py`).

The file shallowly embeds `_instrumented_create` (the `wrapt` wrapper that
`_instrument_chat` installs on `openai.ChatCompletion.create`), together with
the instrument/uninstrument lifecycle, and proves the testable properties of
the specification against it.

Modelling conventions:
* Python values reaching the wrapper are modelled by the inductive `Val`
  (strings, ints, floats as rationals, the constant `math.inf`, booleans,
  lists, and string-keyed dicts).
* A Python exception is an `Err`: `keyError k` for a missing subscript key,
  `typeError` for subscripting / iterating a value of the wrong shape, and
  `exc v` for an arbitrary exception raised by the wrapped callable.
* A span is its name plus the ordered list of attributes set on it.  The
  `with tracer.start_as_current_span(name) as span:` block is modelled by
  emitting the span with exactly the attributes set before the block was
  left, on every exit path, normal or exceptional.
* The wrapped (underlying) callable is a parameter
  `wrapped : List Val → Kwargs → Except Err Val`; every invocation of it is
  logged in the `calls` field of the outcome so that call counts are provable.
-/

namespace OpenAIInstrumentation

/-- A Python value as seen by the instrumentation wrapper. -/
inductive Val where
  | str : String → Val
  | int : Int → Val
  | float : Rat → Val
  /-- The float `math.inf`, used as the `max_tokens` default. -/
  | inf : Val
  | bool : Bool → Val
  | list : List Val → Val
  | dict : List (String × Val) → Val

/-- A Python exception, as far as the wrapper can raise or propagate one. -/
inductive Err where
  /-- `KeyError` from `d[k]` when `k` is absent. -/
  | keyError : String → Err
  /-- `TypeError` from subscripting or iterating a value of the wrong shape. -/
  | typeError : Err
  /-- An arbitrary exception raised by the underlying callable. -/
  | exc : Val → Err

/-- The keyword arguments of one call: an ordered association list
(Python dicts have unique keys; lookup takes the first match). -/
abbrev Kwargs := List (String × Val)

/-- First-match association-list lookup (Python `k in d` / `d[k]`). -/
def kwLookup : Kwargs → String → Option Val
  | [], _ => none
  | (k, v) :: rest, key => if k = key then some v else kwLookup rest key

/-- Subscript `kwargs[key]`: raises `KeyError` when the key is absent. -/
def kwGet (kwargs : Kwargs) (key : String) : Except Err Val :=
  match kwLookup kwargs key with
  | some v => .ok v
  | none => .error (.keyError key)

/-- The expression `kwargs[key] if key in kwargs else d` — the default-selection idiom used
for every optional request field. -/
def kwGetD (kwargs : Kwargs) (key : String) (d : Val) : Val :=
  match kwLookup kwargs key with
  | some v => v
  | none => d

/-- Subscript `v[key]` on an arbitrary value: `KeyError` when `v` is a dict lacking
`key`, `TypeError` when `v` is not a dict. -/
def getItem (v : Val) (key : String) : Except Err Val :=
  match v with
  | .dict entries => kwGet entries key
  | _ => .error .typeError

/-- Python iteration (`for x in v`), as used by the messages loop and by
`enumerate(response["choices"])`: a list yields its elements, a string
yields its characters as one-character strings (so `""` yields nothing), a
dict yields its keys in insertion order, and any other value raises
`TypeError` at the loop head. -/
def pyIter : Val → Except Err (List Val)
  | .list vs => .ok vs
  | .str s => .ok (s.toList.map fun c => Val.str (String.singleton c))
  | .dict es => .ok (es.map fun e => Val.str e.1)
  | _ => .error .typeError

mutual
/-- Python `str()` as used by the f-string that renders a role and a content
value into one line.  Container rendering is simplified (no quoting of nested strings); the
instrumented call path only ever renders the role/content values, which are
strings in practice. -/
def pyStr : Val → String
  | .str s => s
  | .int n => toString n
  | .float q => toString q
  | .inf => "inf"
  | .bool true => "True"
  | .bool false => "False"
  | .list vs => "[" ++ pyStrList vs ++ "]"
  | .dict es => "\x7b" ++ pyStrDict es ++ "\x7d"
/-- Comma-separated rendering of a list's elements. -/
def pyStrList : List Val → String
  | [] => ""
  | [v] => pyStr v
  | v :: rest => pyStr v ++ ", " ++ pyStrList rest
/-- Comma-separated rendering of a dict's entries. -/
def pyStrDict : List (String × Val) → String
  | [] => ""
  | [(k, v)] => k ++ ": " ++ pyStr v
  | (k, v) :: rest => k ++ ": " ++ pyStr v ++ ", " ++ pyStrDict rest
end

/-- The `for message in messages` loop (lines 77–78), which appends one
role/content line per message, over an already-extracted list of messages. -/
def flattenMessagesList : List Val → Except Err String
  | [] => .ok ""
  | m :: rest => do
    let role ← getItem m "role"
    let content ← getItem m "content"
    let tail ← flattenMessagesList rest
    pure (pyStr role ++ ": " ++ pyStr content ++ "\n" ++ tail)

/-- Iterating `messages`: the flattening loop runs over whatever `for`
iteration of the supplied value yields. -/
def flattenMessages (v : Val) : Except Err String :=
  match pyIter v with
  | .ok ms => flattenMessagesList ms
  | .error e => .error e

/-- One pending `span.set_attribute(key, value)` whose argument expression may
raise when evaluated. -/
abbrev AttrComp := Except Err (String × Val)

/-- Runs a sequence of attribute computations in order, recording every
attribute set before the first exception (if any), exactly as the successive
`span.set_attribute` statements behave inside the `with` block. -/
def setAttrs : List AttrComp → List (String × Val) × Option Err
  | [] => ([], none)
  | c :: rest =>
    match c with
    | .error e => ([], some e)
    | .ok a =>
      let r := setAttrs rest
      (a :: r.1, r.2)

/-- The span name constant `name = "openai.chat"`. -/
def spanName : String := "openai.chat"

/-- The attribute key for choice `index`, i.e.
`f"{name}.response.choices.{index}.{field}"`. -/
def choiceAttrKey (index : Nat) (field : String) : String :=
  "openai.chat.response.choices." ++ toString index ++ "." ++ field

/-- The request-side `set_attribute` statements, in source order
(lines 60–80): `model` is a required subscript, the ten optional fields use
`kwargs[k] if k in kwargs else default`, and `messages` is a required
subscript whose value is flattened before being set. -/
def requestComputations (kwargs : Kwargs) : List AttrComp :=
  [ (kwGet kwargs "model").map (fun v => ("openai.chat.model", v)),
    .ok ("openai.chat.temperature", kwGetD kwargs "temperature" (.float 1)),
    .ok ("openai.chat.top_p", kwGetD kwargs "top_p" (.float 1)),
    .ok ("openai.chat.n", kwGetD kwargs "n" (.int 1)),
    .ok ("openai.chat.stream", kwGetD kwargs "stream" (.bool false)),
    .ok ("openai.chat.stop", kwGetD kwargs "stop" (.str "")),
    .ok ("openai.chat.max_tokens", kwGetD kwargs "max_tokens" .inf),
    .ok ("openai.chat.presence_penalty", kwGetD kwargs "presence_penalty" (.float 0)),
    .ok ("openai.chat.frequency_penalty", kwGetD kwargs "frequency_penalty" (.float 0)),
    .ok ("openai.chat.logit_bias", kwGetD kwargs "logit_bias" (.str "")),
    .ok ("openai.chat.name", kwGetD kwargs "name" (.str "")),
    (do
      let ms ← kwGet kwargs "messages"
      let s ← flattenMessages ms
      pure (("openai.chat.messages", Val.str s) : String × Val)) ]

/-- The three `set_attribute` statements of the loop body for one `choice`
at position `index` (lines 88–90). -/
def choiceComputations (index : Nat) (choice : Val) : List AttrComp :=
  [ (do
      let m ← getItem choice "message"
      let r ← getItem m "role"
      pure ((choiceAttrKey index "message.role", r) : String × Val)),
    (do
      let m ← getItem choice "message"
      let c ← getItem m "content"
      pure ((choiceAttrKey index "message.content", c) : String × Val)),
    (do
      let fr ← getItem choice "finish_reason"
      pure ((choiceAttrKey index "finish_reason", fr) : String × Val)) ]

/-- The three usage attributes (lines 92–94); each statement re-subscripts
`response["usage"]`. -/
def usageComputations (response : Val) : List AttrComp :=
  [ (do
      let u ← getItem response "usage"
      let v ← getItem u "prompt_tokens"
      pure (("openai.chat.response.usage.prompt_tokens", v) : String × Val)),
    (do
      let u ← getItem response "usage"
      let v ← getItem u "completion_tokens"
      pure (("openai.chat.response.usage.completion_tokens", v) : String × Val)),
    (do
      let u ← getItem response "usage"
      let v ← getItem u "total_tokens"
      pure (("openai.chat.response.usage.total_tokens", v) : String × Val)) ]

/-- The response-side `set_attribute` statements, in source order
(lines 84–94): `id`, `object`, `created`, then
`for index, choice in enumerate(response["choices"])` — the loop body runs
once per element that iterating `response["choices"]` yields (zero times
for an empty string or empty dict), and a failing subscript or a
non-iterable value raises at the head of the loop — then usage. -/
def responseComputations (response : Val) : List AttrComp :=
  [ (getItem response "id").map (fun v => ("openai.chat.response.id", v)),
    (getItem response "object").map (fun v => ("openai.chat.response.object", v)),
    (getItem response "created").map (fun v => ("openai.chat.response.created", v)) ]
  ++ (match (getItem response "choices").bind pyIter with
      | .error e => [.error e]
      | .ok cs => cs.enum.flatMap (fun ic => choiceComputations ic.1 ic.2))
  ++ usageComputations response

/-- One emitted (closed) span. -/
structure Span where
  name : String
  attrs : List (String × Val)

/-- The observable outcome of one invocation of the wrapper: the value
returned to the caller (`.ok none` is Python's implicit `None`, `.error e` a
propagating exception), the spans emitted, and the invocations of the
underlying callable with their exact arguments. -/
structure CallResult where
  result : Except Err (Option Val)
  spans : List Span
  calls : List (List Val × Kwargs)

/-- Shallow embedding of `_instrumented_create(wrapped, instance, args, kwargs)`
(lines 54–97).  `suppressed` is the value of
`context_api.get_value(_SUPPRESS_INSTRUMENTATION_KEY)` at call time. -/
def instrumented_create (suppressed : Bool)
    (wrapped : List Val → Kwargs → Except Err Val)
    (args : List Val) (kwargs : Kwargs) : CallResult :=
  if suppressed then
    { result := .ok none, spans := [], calls := [] }
  else
    let req := setAttrs (requestComputations kwargs)
    match req.2 with
    | some e => { result := .error e, spans := [⟨spanName, req.1⟩], calls := [] }
    | none =>
      match wrapped args kwargs with
      | .error e =>
        { result := .error e, spans := [⟨spanName, req.1⟩], calls := [(args, kwargs)] }
      | .ok response =>
        let resp := setAttrs (responseComputations response)
        match resp.2 with
        | some e =>
          { result := .error e, spans := [⟨spanName, req.1 ++ resp.1⟩],
            calls := [(args, kwargs)] }
        | none =>
          { result := .ok (some response), spans := [⟨spanName, req.1 ++ resp.1⟩],
            calls := [(args, kwargs)] }

/-- Did an `Except` computation succeed? -/
def exceptOk {α : Type} : Except Err α → Bool
  | .ok _ => true
  | .error _ => false

/-- A message that the flattening loop can process: subscripting it with
`"role"` and `"content"` succeeds. -/
def msgOk (m : Val) : Bool :=
  exceptOk (getItem m "role") && exceptOk (getItem m "content")

/-- A keyword-argument set on which the request-side projection raises no
exception: `model` present, and `messages` present, a list, every element
processable by the flattening loop. -/
def validKwargs (kwargs : Kwargs) : Bool :=
  (kwLookup kwargs "model").isSome &&
  (match kwLookup kwargs "messages" with
   | some (.list ms) => ms.all msgOk
   | _ => false)

/-- A choice on which the loop body raises no exception: `message` with
`role` and `content`, and `finish_reason`. -/
def choiceOk (c : Val) : Bool :=
  (match getItem c "message" with
   | .ok m => exceptOk (getItem m "role") && exceptOk (getItem m "content")
   | .error _ => false) &&
  exceptOk (getItem c "finish_reason")

/-- Field `usage` present with the three token-count fields. -/
def usageOk (r : Val) : Bool :=
  match getItem r "usage" with
  | .ok u =>
      exceptOk (getItem u "prompt_tokens") && exceptOk (getItem u "completion_tokens") &&
        exceptOk (getItem u "total_tokens")
  | .error _ => false

/-- A response on which the response-side projection raises no exception:
`id`, `object` and `created` present, `choices` present and iterable with
every yielded choice processable by the loop body, and a complete `usage`. -/
def validResponse (r : Val) : Bool :=
  exceptOk (getItem r "id") && exceptOk (getItem r "object") &&
    exceptOk (getItem r "created") &&
  (match (getItem r "choices").bind pyIter with
   | .ok cs => cs.all choiceOk
   | .error _ => false) &&
  usageOk r

/-- Total variant of `getItem`, used only to STATE the projected attribute
values; on every input where the wrapper does not raise it agrees with the
subscript the wrapper performs. -/
def getItemD (v : Val) (key : String) : Val :=
  match getItem v key with
  | .ok w => w
  | .error _ => .str ""

/-- Total variant of `flattenMessages`, used only to state attribute values. -/
def flattenD (m : Val) : String :=
  match flattenMessages m with
  | .ok s => s
  | .error _ => ""

/-- The twelve request-side attributes, written out: what lines 60–80 set on
the span when no exception is raised. -/
def requestAttrsD (kwargs : Kwargs) : List (String × Val) :=
  [("openai.chat.model", kwGetD kwargs "model" (.str "")),
   ("openai.chat.temperature", kwGetD kwargs "temperature" (.float 1)),
   ("openai.chat.top_p", kwGetD kwargs "top_p" (.float 1)),
   ("openai.chat.n", kwGetD kwargs "n" (.int 1)),
   ("openai.chat.stream", kwGetD kwargs "stream" (.bool false)),
   ("openai.chat.stop", kwGetD kwargs "stop" (.str "")),
   ("openai.chat.max_tokens", kwGetD kwargs "max_tokens" .inf),
   ("openai.chat.presence_penalty", kwGetD kwargs "presence_penalty" (.float 0)),
   ("openai.chat.frequency_penalty", kwGetD kwargs "frequency_penalty" (.float 0)),
   ("openai.chat.logit_bias", kwGetD kwargs "logit_bias" (.str "")),
   ("openai.chat.name", kwGetD kwargs "name" (.str "")),
   ("openai.chat.messages", .str (flattenD (kwGetD kwargs "messages" (.list []))))]

/-- The three attributes the choices loop sets for the choice at `index`,
written out. -/
def choiceAttrsD (index : Nat) (c : Val) : List (String × Val) :=
  [(choiceAttrKey index "message.role", getItemD (getItemD c "message") "role"),
   (choiceAttrKey index "message.content", getItemD (getItemD c "message") "content"),
   (choiceAttrKey index "finish_reason", getItemD c "finish_reason")]

/-- Per-index attribute sets for a whole choices list, indices `0..k-1` in
sequence order. -/
def choicesAttrsD (cs : List Val) : List (String × Val) :=
  cs.enum.flatMap (fun ic => choiceAttrsD ic.1 ic.2)

/-- The sequence of choices the loop iterates: what iterating the
`choices` value of a response yields. -/
def valChoices (r : Val) : List Val :=
  match (getItem r "choices").bind pyIter with
  | .ok cs => cs
  | .error _ => []

/-- The response-side attributes, written out: what lines 84–94 set on the
span when no exception is raised. -/
def responseAttrsD (r : Val) : List (String × Val) :=
  [("openai.chat.response.id", getItemD r "id"),
   ("openai.chat.response.object", getItemD r "object"),
   ("openai.chat.response.created", getItemD r "created")]
  ++ choicesAttrsD (valChoices r)
  ++ [("openai.chat.response.usage.prompt_tokens", getItemD (getItemD r "usage") "prompt_tokens"),
      ("openai.chat.response.usage.completion_tokens", getItemD (getItemD r "usage") "completion_tokens"),
      ("openai.chat.response.usage.total_tokens", getItemD (getItemD r "usage") "total_tokens")]

/-- A `{"role": r, "content": c}` message dict. -/
def mkMessage (role content : String) : Val :=
  .dict [("role", .str role), ("content", .str content)]

/-- Claim C3's per-field property, stated as the spec words it: when the
field is present among the keyword arguments the span attribute is the
supplied value verbatim, and when it is absent the span attribute is the
fixed default `d`. -/
def optionalFieldProjected (sp : Span) (kwargs : Kwargs) (field : String) (d : Val) : Prop :=
  (∀ v, kwLookup kwargs field = some v →
      kwLookup sp.attrs ("openai.chat." ++ field) = some v) ∧
  (kwLookup kwargs field = none →
      kwLookup sp.attrs ("openai.chat." ++ field) = some d)

/-- An unknown exception is one raised by the wrapped callable; the wrapper
itself only ever raises key-lookup (`KeyError`) or shape (`TypeError`)
failures. -/
def lookupErr : Err → Bool
  | .keyError _ => true
  | .typeError => true
  | .exc _ => false

/-! ### The instrument/uninstrument lifecycle

`_instrument_chat` (line 99) installs `_instrumented_create` around
`openai.ChatCompletion.create` via `wrapt.wrap_function_wrapper`, and
`_uninstrument` (lines 102–103) restores the original method via
`opentelemetry.instrumentation.utils.unwrap`.  Those two wrapping
primitives are external libraries, not part of this repository, so the
method-slot they manage is modelled from the spec. -/

/-- The underlying (unwrapped) callable `openai.ChatCompletion.create`. -/
abbrev PyCallable := List Val → Kwargs → Except Err Val

/-- What one invocation of a bound method observably does, given the
suppression flag and the call's arguments. -/
structure BoundMethod where
  run : Bool → List Val → Kwargs → CallResult

/-- An uninstrumented method: calls the underlying callable, returns its
value or propagates its exception, emits no span.  The invocation is logged
so call behavior can be compared with the wrapped one. -/
def origMethod (f : PyCallable) : BoundMethod :=
  ⟨fun _ args kwargs =>
    { result := (f args kwargs).map some, spans := [], calls := [(args, kwargs)] }⟩

/-- Modelled from the spec: the state of the `openai.ChatCompletion.create`
method slot.  `wrapt.wrap_function_wrapper` (not in this repository)
replaces the slot's content with a wrapper that delegates to the original,
keeping the original reachable; `unwrap` (also external) restores it. -/
structure SlotState where
  underlying : PyCallable
  instrumented : Bool

/-- The slot before any instrumentation. -/
def initSlot (f : PyCallable) : SlotState :=
  { underlying := f, instrumented := false }

/-- Embedding of `_instrument_chat` (line 99): installs `_instrumented_create` on the slot. -/
def instrument_chat (st : SlotState) : SlotState :=
  { st with instrumented := true }

/-- Embedding of `_uninstrument` (lines 102–103): restores the original method. -/
def uninstrument (st : SlotState) : SlotState :=
  { st with instrumented := false }

/-- The method a caller currently reaches through the slot. -/
def currentMethod (st : SlotState) : BoundMethod :=
  if st.instrumented then
    ⟨fun suppressed args kwargs => instrumented_create suppressed st.underlying args kwargs⟩
  else
    origMethod st.underlying

/-- The twelve request-side attribute keys.  Every `openai.chat.response.*`
key is outside this list, so a span whose keys all lie in it carries no
response-derived attribute. -/
def requestAttrKeys : List String :=
  ["openai.chat.model", "openai.chat.temperature", "openai.chat.top_p",
   "openai.chat.n", "openai.chat.stream", "openai.chat.stop",
   "openai.chat.max_tokens", "openai.chat.presence_penalty",
   "openai.chat.frequency_penalty", "openai.chat.logit_bias",
   "openai.chat.name", "openai.chat.messages"]

/-- Concatenation of the per-message lines, used to state the expected value
of the messages attribute. -/
def joinLines : List String → String
  | [] => ""
  | s :: rest => s ++ joinLines rest

/-! ### Concrete sample values (used by the witness theorems) -/

/-- A representative valid keyword-argument set. -/
def sampleKwargs : Kwargs :=
  [("model", .str "gpt-3.5-turbo"),
   ("messages", .list [mkMessage "user" "Hi", mkMessage "assistant" "Hello"])]

/-- A representative complete response. -/
def sampleResponse : Val :=
  .dict [("id", .str "chatcmpl-1"), ("object", .str "chat.completion"),
         ("created", .int 1700000000),
         ("choices", .list
           [.dict [("message", .dict [("role", .str "assistant"), ("content", .str "Hello")]),
                   ("finish_reason", .str "stop")]]),
         ("usage", .dict [("prompt_tokens", .int 9), ("completion_tokens", .int 12),
                          ("total_tokens", .int 21)])]

/-- An underlying callable that returns `sampleResponse`. -/
def sampleWrapped : PyCallable := fun _ _ => .ok sampleResponse

/-- An underlying callable that raises. -/
def sampleFailing : PyCallable := fun _ _ => .error (.exc (.str "boom"))

/-- An underlying callable that returns a response missing required fields. -/
def sampleBadWrapped : PyCallable := fun _ _ => .ok (.dict [("id", .str "chatcmpl-2")])

/-- An underlying callable that accepts positional arguments (ignores them),
for exercising a positional-style call. -/
def sampleAcceptAll : PyCallable := fun _ _ => .ok (.str "ok")

/-- Positional arguments carrying model and messages in `args`. -/
def samplePosArgs : List Val := [.str "gpt-3.5-turbo", .list [mkMessage "user" "Hi"]]

/-! ### Lemmas about the attribute machinery -/

theorem setAttrs_map_ok (as : List (String × Val)) :
    setAttrs (as.map Except.ok) = (as, none) := by
  induction as with
  | nil => rfl
  | cons a rest ih => simp [setAttrs, ih]

theorem setAttrs_snd_none_iff (cs : List AttrComp) :
    (setAttrs cs).2 = none ↔ cs.all (fun c => exceptOk c) = true := by
  induction cs with
  | nil => simp [setAttrs]
  | cons c rest ih =>
    cases c with
    | error e => simp [setAttrs, exceptOk]
    | ok a => simpa [setAttrs, exceptOk] using ih

theorem setAttrs_err_mem {cs : List AttrComp} {e : Err}
    (h : (setAttrs cs).2 = some e) : Except.error e ∈ cs := by
  induction cs with
  | nil => simp [setAttrs] at h
  | cons c rest ih =>
    cases c with
    | error e0 =>
      simp [setAttrs] at h
      simp [h]
    | ok a =>
      simp [setAttrs] at h
      exact List.mem_cons_of_mem _ (ih h)

theorem flattenMessagesList_ok {ms : List Val} (h : ms.all msgOk = true) :
    ∃ s, flattenMessagesList ms = .ok s := by
  induction ms with
  | nil => exact ⟨"", rfl⟩
  | cons m rest ih =>
    simp only [List.all_cons, Bool.and_eq_true] at h
    obtain ⟨hm, hrest⟩ := h
    obtain ⟨s, hs⟩ := ih hrest
    unfold msgOk at hm
    rw [Bool.and_eq_true] at hm
    obtain ⟨hr, hc⟩ := hm
    cases hrole : getItem m "role" with
    | error e => rw [hrole] at hr; simp [exceptOk] at hr
    | ok r =>
      cases hcontent : getItem m "content" with
      | error e => rw [hcontent] at hc; simp [exceptOk] at hc
      | ok c =>
        refine ⟨pyStr r ++ ": " ++ pyStr c ++ "\n" ++ s, ?_⟩
        simp [flattenMessagesList, hrole, hcontent, hs, Bind.bind, Except.bind, Pure.pure, Except.pure]

theorem requestComputations_eq {kwargs : Kwargs} (h : validKwargs kwargs = true) :
    requestComputations kwargs = (requestAttrsD kwargs).map Except.ok := by
  unfold validKwargs at h
  rw [Bool.and_eq_true] at h
  obtain ⟨h1, h2⟩ := h
  cases hm : kwLookup kwargs "model" with
  | none => rw [hm] at h1; simp at h1
  | some m =>
    cases hmsg : kwLookup kwargs "messages" with
    | none => rw [hmsg] at h2; simp at h2
    | some v =>
      rw [hmsg] at h2
      cases v with
      | list ms =>
        obtain ⟨s, hs⟩ := flattenMessagesList_ok (by simpa using h2)
        simp [requestComputations, requestAttrsD, kwGet, kwGetD, hm, hmsg,
          flattenMessages, flattenD, pyIter, hs, Bind.bind, Except.bind, Except.map,
          Functor.map, Pure.pure, Except.pure]
      | str s => simp at h2
      | int n => simp at h2
      | float q => simp at h2
      | inf => simp at h2
      | bool b => simp at h2
      | dict es => simp at h2

theorem setAttrs_request {kwargs : Kwargs} (h : validKwargs kwargs = true) :
    setAttrs (requestComputations kwargs) = (requestAttrsD kwargs, none) := by
  rw [requestComputations_eq h, setAttrs_map_ok]

theorem choiceComputations_eq {i : Nat} {c : Val} (h : choiceOk c = true) :
    choiceComputations i c = (choiceAttrsD i c).map Except.ok := by
  unfold choiceOk at h
  rw [Bool.and_eq_true] at h
  obtain ⟨h1, h3⟩ := h
  cases hm : getItem c "message" with
  | error e => rw [hm] at h1; simp at h1
  | ok m =>
    rw [hm] at h1
    simp only [Bool.and_eq_true] at h1
    obtain ⟨hr, hc⟩ := h1
    cases hrole : getItem m "role" with
    | error e => rw [hrole] at hr; simp [exceptOk] at hr
    | ok rv =>
      cases hcontent : getItem m "content" with
      | error e => rw [hcontent] at hc; simp [exceptOk] at hc
      | ok cv =>
        cases hfin : getItem c "finish_reason" with
        | error e => rw [hfin] at h3; simp [exceptOk] at h3
        | ok fv =>
          simp [choiceComputations, choiceAttrsD, getItemD, hm, hrole, hcontent,
            hfin, Bind.bind, Except.bind, Pure.pure, Except.pure]

theorem choicesComputations_eq {cs : List Val} (h : cs.all choiceOk = true) :
    ∀ n, (List.enumFrom n cs).flatMap (fun ic => choiceComputations ic.1 ic.2)
      = ((List.enumFrom n cs).flatMap (fun ic => choiceAttrsD ic.1 ic.2)).map Except.ok := by
  induction cs with
  | nil => intro n; rfl
  | cons c rest ih =>
    intro n
    simp only [List.all_cons, Bool.and_eq_true] at h
    obtain ⟨hc, hrest⟩ := h
    simp only [List.enumFrom, List.flatMap_cons, List.map_append]
    rw [choiceComputations_eq hc, ih hrest]

theorem responseComputations_eq {r : Val} (h : validResponse r = true) :
    responseComputations r = (responseAttrsD r).map Except.ok := by
  unfold validResponse at h
  simp only [Bool.and_eq_true] at h
  obtain ⟨⟨⟨⟨h1, h2⟩, h3⟩, h4⟩, h5⟩ := h
  cases hid : getItem r "id" with
  | error e => rw [hid] at h1; simp [exceptOk] at h1
  | ok vid =>
  cases hob : getItem r "object" with
  | error e => rw [hob] at h2; simp [exceptOk] at h2
  | ok vob =>
  cases hcr : getItem r "created" with
  | error e => rw [hcr] at h3; simp [exceptOk] at h3
  | ok vcr =>
  unfold usageOk at h5
  cases hu : getItem r "usage" with
  | error e => rw [hu] at h5; simp at h5
  | ok u =>
  rw [hu] at h5
  simp only [Bool.and_eq_true] at h5
  obtain ⟨⟨hp, hcm⟩, ht⟩ := h5
  cases hpt : getItem u "prompt_tokens" with
  | error e => rw [hpt] at hp; simp [exceptOk] at hp
  | ok vpt =>
  cases hcmt : getItem u "completion_tokens" with
  | error e => rw [hcmt] at hcm; simp [exceptOk] at hcm
  | ok vcm =>
  cases htt : getItem u "total_tokens" with
  | error e => rw [htt] at ht; simp [exceptOk] at ht
  | ok vtt =>
  cases hb : (getItem r "choices").bind pyIter with
  | error e => rw [hb] at h4; simp at h4
  | ok cs =>
  rw [hb] at h4
  have hflat := choicesComputations_eq (by simpa using h4) 0
  simp only [responseComputations, responseAttrsD, choicesAttrsD, valChoices, hb]
  simp [usageComputations, getItemD, hid, hob, hcr, hu, hpt, hcmt, htt,
    List.enum, hflat, Bind.bind, Except.bind, Pure.pure, Except.pure,
    Except.map, Functor.map, List.map_append]

theorem setAttrs_response {r : Val} (h : validResponse r = true) :
    setAttrs (responseComputations r) = (responseAttrsD r, none) := by
  rw [responseComputations_eq h, setAttrs_map_ok]

/-- Under a valid keyword-argument set, the wrapper reaches the real call and
then behaves by the three response branches. -/
theorem create_unfold {wrapped : PyCallable} {args : List Val} {kwargs : Kwargs}
    (h : validKwargs kwargs = true) :
    instrumented_create false wrapped args kwargs =
      match wrapped args kwargs with
      | .error e =>
          { result := .error e, spans := [⟨spanName, requestAttrsD kwargs⟩],
            calls := [(args, kwargs)] }
      | .ok response =>
        match (setAttrs (responseComputations response)).2 with
        | some e =>
            { result := .error e,
              spans := [⟨spanName,
                requestAttrsD kwargs ++ (setAttrs (responseComputations response)).1⟩],
              calls := [(args, kwargs)] }
        | none =>
            { result := .ok (some response),
              spans := [⟨spanName,
                requestAttrsD kwargs ++ (setAttrs (responseComputations response)).1⟩],
              calls := [(args, kwargs)] } := by
  unfold instrumented_create
  rw [if_neg (by simp)]
  rw [setAttrs_request h]

theorem exceptOk_map {α β : Type} (f : α → β) (x : Except Err α) :
    exceptOk (Except.map f x) = exceptOk x := by
  cases x <;> rfl

theorem choiceComputations_all (i : Nat) (c : Val) :
    (choiceComputations i c).all (fun x => exceptOk x) = choiceOk c := by
  unfold choiceComputations choiceOk
  cases hm : getItem c "message" with
  | error e => simp [Bind.bind, Except.bind, exceptOk]
  | ok m =>
    cases hr : getItem m "role" <;> cases hc : getItem m "content" <;>
      cases hf : getItem c "finish_reason" <;>
        simp [hr, hc, hf, Bind.bind, Except.bind, Pure.pure, Except.pure, exceptOk,
          Bool.and_assoc]

theorem usageComputations_all (r : Val) :
    (usageComputations r).all (fun x => exceptOk x) = usageOk r := by
  unfold usageComputations usageOk
  cases hu : getItem r "usage" with
  | error e => simp [Bind.bind, Except.bind, exceptOk]
  | ok u =>
    cases h1 : getItem u "prompt_tokens" <;> cases h2 : getItem u "completion_tokens" <;>
      cases h3 : getItem u "total_tokens" <;>
        simp [h1, h2, h3, Bind.bind, Except.bind, Pure.pure, Except.pure, exceptOk,
          Bool.and_assoc]

theorem choicesComputations_all (cs : List Val) : ∀ n : Nat,
    ((List.enumFrom n cs).flatMap (fun ic => choiceComputations ic.1 ic.2)).all
      (fun x => exceptOk x) = cs.all choiceOk := by
  induction cs with
  | nil => intro n; rfl
  | cons c rest ih =>
    intro n
    simp only [List.enumFrom, List.flatMap_cons, List.all_append, List.all_cons,
      ih, choiceComputations_all]

theorem enumFrom_all_snd (p : Val → Bool) (cs : List Val) : ∀ n : Nat,
    ((List.enumFrom n cs).all fun a => p a.2) = cs.all p := by
  induction cs with
  | nil => intro n; rfl
  | cons c rest ih => intro n; simp [List.enumFrom_cons, ih]

theorem responseComputations_all (r : Val) :
    (responseComputations r).all (fun x => exceptOk x) = validResponse r := by
  unfold responseComputations validResponse
  rw [List.all_append, List.all_append, usageComputations_all]
  cases hb : (getItem r "choices").bind pyIter with
  | error e => simp [exceptOk_map, exceptOk, Bool.and_assoc]
  | ok cs =>
    simp only [List.enum_eq_enumFrom, List.all_flatMap, choiceComputations_all,
      enumFrom_all_snd, exceptOk_map]
    simp [exceptOk_map, Bool.and_assoc]

theorem response_err_none_iff (r : Val) :
    (setAttrs (responseComputations r)).2 = none ↔ validResponse r = true := by
  rw [setAttrs_snd_none_iff, responseComputations_all]

theorem getItem_err {v : Val} {k : String} {e : Err} (h : getItem v k = .error e) :
    lookupErr e = true := by
  cases v with
  | dict es =>
    have h2 : kwGet es k = .error e := h
    unfold kwGet at h2
    cases hl : kwLookup es k with
    | some w => rw [hl] at h2; simp at h2
    | none =>
      rw [hl] at h2
      simp only [Except.error.injEq] at h2
      rw [← h2]
      rfl
  | str s => simp only [getItem, Except.error.injEq] at h; rw [← h]; rfl
  | int n => simp only [getItem, Except.error.injEq] at h; rw [← h]; rfl
  | float q => simp only [getItem, Except.error.injEq] at h; rw [← h]; rfl
  | inf => simp only [getItem, Except.error.injEq] at h; rw [← h]; rfl
  | bool b => simp only [getItem, Except.error.injEq] at h; rw [← h]; rfl
  | list vs => simp only [getItem, Except.error.injEq] at h; rw [← h]; rfl

theorem map_err {x : Except Err Val} {f : Val → String × Val} {e : Err}
    (h : Except.map f x = .error e) : x = .error e := by
  cases x with
  | error e0 => simp [Except.map] at h; rw [h]
  | ok v => simp [Except.map] at h

theorem bind1_err {x : Except Err Val} {mk : Val → String × Val} {e : Err}
    (h : (do let a ← x; pure (mk a) : AttrComp) = Except.error e) :
    x = .error e := by
  cases x with
  | error e0 => simp [Bind.bind, Except.bind] at h; rw [h]
  | ok a => simp [Bind.bind, Except.bind, Pure.pure, Except.pure] at h

theorem bind2_err {x : Except Err Val} {g : Val → Except Err Val}
    {mk : Val → String × Val} {e : Err}
    (h : (do let a ← x; let b ← g a; pure (mk b) : AttrComp) = Except.error e) :
    x = .error e ∨ ∃ a, x = .ok a ∧ g a = .error e := by
  cases x with
  | error e0 => simp [Bind.bind, Except.bind] at h; left; rw [h]
  | ok a =>
    cases hg : g a with
    | error e0 =>
      simp [Bind.bind, Except.bind, hg] at h
      right
      exact ⟨a, rfl, by rw [hg, h]⟩
    | ok b => simp [Bind.bind, Except.bind, hg, Pure.pure, Except.pure] at h

theorem choiceComp_err {i : Nat} {c : Val} {e : Err}
    (h : Except.error e ∈ choiceComputations i c) : lookupErr e = true := by
  unfold choiceComputations at h
  simp only [List.mem_cons, List.not_mem_nil, or_false] at h
  rcases h with h | h | h
  · rcases bind2_err h.symm with h2 | ⟨m, _, h2⟩
    · exact getItem_err h2
    · exact getItem_err h2
  · rcases bind2_err h.symm with h2 | ⟨m, _, h2⟩
    · exact getItem_err h2
    · exact getItem_err h2
  · exact getItem_err (bind1_err h.symm)

theorem usageComp_err {r : Val} {e : Err}
    (h : Except.error e ∈ usageComputations r) : lookupErr e = true := by
  unfold usageComputations at h
  simp only [List.mem_cons, List.not_mem_nil, or_false] at h
  rcases h with h | h | h <;>
    (rcases bind2_err h.symm with h2 | ⟨u, _, h2⟩
     · exact getItem_err h2
     · exact getItem_err h2)

theorem pyIter_err {v : Val} {e : Err} (h : pyIter v = .error e) :
    lookupErr e = true := by
  cases v with
  | str s => simp [pyIter] at h
  | list vs => simp [pyIter] at h
  | dict es => simp [pyIter] at h
  | int n => simp only [pyIter, Except.error.injEq] at h; rw [← h]; rfl
  | float q => simp only [pyIter, Except.error.injEq] at h; rw [← h]; rfl
  | inf => simp only [pyIter, Except.error.injEq] at h; rw [← h]; rfl
  | bool b => simp only [pyIter, Except.error.injEq] at h; rw [← h]; rfl

theorem choicesIter_err {r : Val} {e : Err}
    (h : (getItem r "choices").bind pyIter = .error e) : lookupErr e = true := by
  cases hg : getItem r "choices" with
  | error e0 =>
    rw [hg] at h
    simp only [Except.bind, Except.error.injEq] at h
    rw [← h]
    exact getItem_err hg
  | ok v =>
    rw [hg] at h
    simp only [Except.bind] at h
    exact pyIter_err h

theorem respComp_err {r : Val} {e : Err}
    (hmem : Except.error e ∈ responseComputations r) : lookupErr e = true := by
  unfold responseComputations at hmem
  rw [List.mem_append, List.mem_append] at hmem
  rcases hmem with (h | h) | h
  · simp only [List.mem_cons, List.not_mem_nil, or_false] at h
    rcases h with h | h | h <;> exact getItem_err (map_err h.symm)
  · cases hb : (getItem r "choices").bind pyIter with
    | error e0 =>
      rw [hb] at h
      simp only [List.mem_cons, List.not_mem_nil, or_false, Except.error.injEq] at h
      rw [h]
      exact choicesIter_err hb
    | ok cs =>
      rw [hb] at h
      simp only [List.mem_flatMap] at h
      obtain ⟨ic, _, hmem2⟩ := h
      exact choiceComp_err hmem2
  · exact usageComp_err h

/-- On any span whose attributes start with the twelve request attributes,
each optional field is projected by the present-else-default rule. -/
theorem requestAttrs_projected (kwargs : Kwargs) (tail : List (String × Val)) :
    optionalFieldProjected ⟨spanName, requestAttrsD kwargs ++ tail⟩ kwargs "temperature" (.float 1) ∧
    optionalFieldProjected ⟨spanName, requestAttrsD kwargs ++ tail⟩ kwargs "top_p" (.float 1) ∧
    optionalFieldProjected ⟨spanName, requestAttrsD kwargs ++ tail⟩ kwargs "n" (.int 1) ∧
    optionalFieldProjected ⟨spanName, requestAttrsD kwargs ++ tail⟩ kwargs "stream" (.bool false) ∧
    optionalFieldProjected ⟨spanName, requestAttrsD kwargs ++ tail⟩ kwargs "stop" (.str "") ∧
    optionalFieldProjected ⟨spanName, requestAttrsD kwargs ++ tail⟩ kwargs "max_tokens" .inf ∧
    optionalFieldProjected ⟨spanName, requestAttrsD kwargs ++ tail⟩ kwargs "presence_penalty" (.float 0) ∧
    optionalFieldProjected ⟨spanName, requestAttrsD kwargs ++ tail⟩ kwargs "frequency_penalty" (.float 0) ∧
    optionalFieldProjected ⟨spanName, requestAttrsD kwargs ++ tail⟩ kwargs "logit_bias" (.str "") ∧
    optionalFieldProjected ⟨spanName, requestAttrsD kwargs ++ tail⟩ kwargs "name" (.str "") := by
  refine ⟨⟨fun v hv => ?_, fun h0 => ?_⟩, ⟨fun v hv => ?_, fun h0 => ?_⟩,
    ⟨fun v hv => ?_, fun h0 => ?_⟩, ⟨fun v hv => ?_, fun h0 => ?_⟩,
    ⟨fun v hv => ?_, fun h0 => ?_⟩, ⟨fun v hv => ?_, fun h0 => ?_⟩,
    ⟨fun v hv => ?_, fun h0 => ?_⟩, ⟨fun v hv => ?_, fun h0 => ?_⟩,
    ⟨fun v hv => ?_, fun h0 => ?_⟩, ⟨fun v hv => ?_, fun h0 => ?_⟩⟩ <;>
    simp_all [requestAttrsD, kwLookup, kwGetD]

/-- Every non-suppressed invocation with a valid keyword-argument set emits
exactly one span, whose attributes start with the twelve request attributes. -/
theorem create_spans_sub {wrapped : PyCallable} {args : List Val} {kwargs : Kwargs}
    (h : validKwargs kwargs = true) :
    ∃ tail, (instrumented_create false wrapped args kwargs).spans
      = [⟨spanName, requestAttrsD kwargs ++ tail⟩] := by
  rw [create_unfold h]
  cases wrapped args kwargs with
  | error e => exact ⟨[], by simp⟩
  | ok resp =>
    cases hr : (setAttrs (responseComputations resp)).2 with
    | none => exact ⟨(setAttrs (responseComputations resp)).1, by simp [hr]⟩
    | some e => exact ⟨(setAttrs (responseComputations resp)).1, by simp [hr]⟩

theorem flattenMessagesList_mk (pairs : List (String × String)) :
    flattenMessagesList (pairs.map fun p => mkMessage p.1 p.2)
      = .ok (joinLines (pairs.map fun p => p.1 ++ ": " ++ p.2 ++ "\n")) := by
  induction pairs with
  | nil => rfl
  | cons p rest ih =>
    have hrole : getItem (mkMessage p.1 p.2) "role" = .ok (.str p.1) := rfl
    have hcontent : getItem (mkMessage p.1 p.2) "content" = .ok (.str p.2) := rfl
    simp [flattenMessagesList, hrole, hcontent, ih, joinLines, pyStr,
      Bind.bind, Except.bind, Pure.pure, Except.pure]

theorem msgOk_mk (a b : String) : msgOk (mkMessage a b) = true := rfl

theorem validKwargs_of_mk {kwargs : Kwargs} {m : Val} {pairs : List (String × String)}
    (hm : kwLookup kwargs "model" = some m)
    (hmsg : kwLookup kwargs "messages"
      = some (.list (pairs.map fun p => mkMessage p.1 p.2))) :
    validKwargs kwargs = true := by
  simp only [validKwargs, hm, hmsg, Option.isSome_some, Bool.true_and]
  simp only [List.all_eq_true, List.mem_map, forall_exists_index, and_imp]
  intro x p hp hx
  rw [← hx]
  exact msgOk_mk p.1 p.2

/-! ### The claims -/

/-- C1.  Transparency of the wrapped call: for every non-suppressed
invocation with a valid keyword-argument set (containing `model` and
`messages`) whose response contains all required fields, the instrumented
wrapper invokes the underlying callable with exactly the caller's arguments,
unmodified, and returns exactly the underlying callable's return value to
the caller. -/
theorem transparency_of_wrapped_call
    {wrapped : PyCallable} {args : List Val} {kwargs : Kwargs} {resp : Val}
    (hkw : validKwargs kwargs = true)
    (hcall : wrapped args kwargs = Except.ok resp)
    (hresp : validResponse resp = true) :
    (instrumented_create false wrapped args kwargs).result = Except.ok (some resp) ∧
    (instrumented_create false wrapped args kwargs).calls = [(args, kwargs)] := by
  rw [create_unfold hkw, hcall]
  simp [setAttrs_response hresp]

theorem transparency_of_wrapped_call_witness :
    (instrumented_create false sampleWrapped [] sampleKwargs).result
        = Except.ok (some sampleResponse) ∧
    (instrumented_create false sampleWrapped [] sampleKwargs).calls
        = [([], sampleKwargs)] :=
  transparency_of_wrapped_call (by decide) rfl (by decide)

/-- C2.  Suppression short-circuit: for every invocation made while the
process-wide suppression flag is set, the underlying callable is never
invoked, no span is opened or emitted, and no response value is returned to
the caller (Python's implicit `None` comes back instead). -/
theorem suppression_short_circuit (wrapped : PyCallable) (args : List Val)
    (kwargs : Kwargs) :
    instrumented_create true wrapped args kwargs =
      { result := .ok none, spans := [], calls := [] } :=
  rfl

/-- C3.  Optional-field defaults: on every span of a non-suppressed valid
invocation, each of the ten optional request fields is recorded verbatim
when the keyword is present (including explicitly false/zero values), and as
its fixed default (`temperature=1.0`, `top_p=1.0`, `n=1`, `stream=false`,
`stop=""`, `max_tokens=inf`, `presence_penalty=0.0`, `frequency_penalty=0.0`,
`logit_bias=""`, `name=""`) exactly when the keyword is absent. -/
theorem optional_field_defaults
    {wrapped : PyCallable} {args : List Val} {kwargs : Kwargs}
    (hkw : validKwargs kwargs = true) :
    (instrumented_create false wrapped args kwargs).spans ≠ [] ∧
    ∀ sp ∈ (instrumented_create false wrapped args kwargs).spans,
      optionalFieldProjected sp kwargs "temperature" (.float 1) ∧
      optionalFieldProjected sp kwargs "top_p" (.float 1) ∧
      optionalFieldProjected sp kwargs "n" (.int 1) ∧
      optionalFieldProjected sp kwargs "stream" (.bool false) ∧
      optionalFieldProjected sp kwargs "stop" (.str "") ∧
      optionalFieldProjected sp kwargs "max_tokens" .inf ∧
      optionalFieldProjected sp kwargs "presence_penalty" (.float 0) ∧
      optionalFieldProjected sp kwargs "frequency_penalty" (.float 0) ∧
      optionalFieldProjected sp kwargs "logit_bias" (.str "") ∧
      optionalFieldProjected sp kwargs "name" (.str "") := by
  obtain ⟨tail, hsp⟩ := @create_spans_sub wrapped args kwargs hkw
  rw [hsp]
  refine ⟨by simp, ?_⟩
  intro sp hmem
  rw [List.mem_singleton] at hmem
  rw [hmem]
  exact requestAttrs_projected kwargs tail

theorem optional_field_defaults_witness :
    (instrumented_create false sampleWrapped [] sampleKwargs).spans ≠ [] ∧
    ∀ sp ∈ (instrumented_create false sampleWrapped [] sampleKwargs).spans,
      optionalFieldProjected sp sampleKwargs "temperature" (.float 1) ∧
      optionalFieldProjected sp sampleKwargs "top_p" (.float 1) ∧
      optionalFieldProjected sp sampleKwargs "n" (.int 1) ∧
      optionalFieldProjected sp sampleKwargs "stream" (.bool false) ∧
      optionalFieldProjected sp sampleKwargs "stop" (.str "") ∧
      optionalFieldProjected sp sampleKwargs "max_tokens" .inf ∧
      optionalFieldProjected sp sampleKwargs "presence_penalty" (.float 0) ∧
      optionalFieldProjected sp sampleKwargs "frequency_penalty" (.float 0) ∧
      optionalFieldProjected sp sampleKwargs "logit_bias" (.str "") ∧
      optionalFieldProjected sp sampleKwargs "name" (.str "") :=
  optional_field_defaults (by decide)

/-- C4.  Messages flattening: for every ordered sequence of `{role, content}`
message pairs supplied as the `messages` keyword argument (with `model`
present), the messages span attribute equals the concatenation, in original
sequence order, of one `"role: content"` line terminated by a newline per
message. -/
theorem messages_flattening
    {wrapped : PyCallable} {args : List Val} {kwargs : Kwargs} {m : Val}
    {pairs : List (String × String)}
    (hm : kwLookup kwargs "model" = some m)
    (hmsg : kwLookup kwargs "messages"
      = some (.list (pairs.map fun p => mkMessage p.1 p.2))) :
    (instrumented_create false wrapped args kwargs).spans ≠ [] ∧
    ∀ sp ∈ (instrumented_create false wrapped args kwargs).spans,
      kwLookup sp.attrs "openai.chat.messages"
        = some (.str (joinLines (pairs.map fun p => p.1 ++ ": " ++ p.2 ++ "\n"))) := by
  obtain ⟨tail, hsp⟩ :=
    @create_spans_sub wrapped args kwargs (validKwargs_of_mk hm hmsg)
  rw [hsp]
  refine ⟨by simp, ?_⟩
  intro sp hmem
  rw [List.mem_singleton] at hmem
  rw [hmem]
  show kwLookup (requestAttrsD kwargs ++ tail) "openai.chat.messages" = _
  simp [requestAttrsD, kwLookup, kwGetD, hmsg, flattenD, flattenMessages,
    pyIter, flattenMessagesList_mk]

theorem messages_flattening_witness :
    (instrumented_create false sampleWrapped [] sampleKwargs).spans ≠ [] ∧
    ∀ sp ∈ (instrumented_create false sampleWrapped [] sampleKwargs).spans,
      kwLookup sp.attrs "openai.chat.messages"
        = some (.str "user: Hi\nassistant: Hello\n") :=
  @messages_flattening sampleWrapped [] sampleKwargs (.str "gpt-3.5-turbo")
    [("user", "Hi"), ("assistant", "Hello")] rfl rfl

/-- C5.  Choices flattening: for every successfully projected response whose
choices sequence has length `k`, the emitted span carries, after the request
attributes and the `id`/`object`/`created` attributes, exactly `k` sets of
`response.choices.<i>` attributes (`message.role`, `message.content`,
`finish_reason`), with indices exactly `0..k-1` in sequence order and the
`i`-th set taken from the `i`-th choice. -/
theorem choices_flattening
    {wrapped : PyCallable} {args : List Val} {kwargs : Kwargs} {resp : Val}
    {cs : List Val}
    (hkw : validKwargs kwargs = true)
    (hcall : wrapped args kwargs = Except.ok resp)
    (hresp : validResponse resp = true)
    (hch : getItem resp "choices" = Except.ok (Val.list cs)) :
    (instrumented_create false wrapped args kwargs).spans =
      [⟨spanName, requestAttrsD kwargs ++
        ([("openai.chat.response.id", getItemD resp "id"),
          ("openai.chat.response.object", getItemD resp "object"),
          ("openai.chat.response.created", getItemD resp "created")]
         ++ cs.enum.flatMap (fun ic => choiceAttrsD ic.1 ic.2)
         ++ [("openai.chat.response.usage.prompt_tokens",
               getItemD (getItemD resp "usage") "prompt_tokens"),
             ("openai.chat.response.usage.completion_tokens",
               getItemD (getItemD resp "usage") "completion_tokens"),
             ("openai.chat.response.usage.total_tokens",
               getItemD (getItemD resp "usage") "total_tokens")])⟩] := by
  rw [create_unfold hkw, hcall]
  simp [setAttrs_response hresp, responseAttrsD, choicesAttrsD, valChoices, hch,
    Except.bind, pyIter]

theorem choices_flattening_witness :
    (instrumented_create false sampleWrapped [] sampleKwargs).spans =
      [⟨spanName, requestAttrsD sampleKwargs ++
        ([("openai.chat.response.id", getItemD sampleResponse "id"),
          ("openai.chat.response.object", getItemD sampleResponse "object"),
          ("openai.chat.response.created", getItemD sampleResponse "created")]
         ++ (valChoices sampleResponse).enum.flatMap (fun ic => choiceAttrsD ic.1 ic.2)
         ++ [("openai.chat.response.usage.prompt_tokens",
               getItemD (getItemD sampleResponse "usage") "prompt_tokens"),
             ("openai.chat.response.usage.completion_tokens",
               getItemD (getItemD sampleResponse "usage") "completion_tokens"),
             ("openai.chat.response.usage.total_tokens",
               getItemD (getItemD sampleResponse "usage") "total_tokens")])⟩] :=
  choices_flattening (by decide) rfl (by decide) rfl

/-- C6.  Underlying-call failure propagation: for every non-suppressed valid
invocation in which the underlying callable raises, the wrapper raises the
same exception unchanged to the caller, the span is still closed (exactly
one span is emitted), and it carries only the twelve request attributes —
every key lies in `requestAttrKeys`, so no response-derived attribute is
recorded. -/
theorem underlying_failure_propagation
    {wrapped : PyCallable} {args : List Val} {kwargs : Kwargs} {e : Err}
    (hkw : validKwargs kwargs = true)
    (hcall : wrapped args kwargs = Except.error e) :
    instrumented_create false wrapped args kwargs =
      { result := .error e, spans := [⟨spanName, requestAttrsD kwargs⟩],
        calls := [(args, kwargs)] } ∧
    ∀ p ∈ requestAttrsD kwargs, p.1 ∈ requestAttrKeys := by
  constructor
  · rw [create_unfold hkw]
    rw [hcall]
  · intro p hp
    simp only [requestAttrsD, List.mem_cons, List.not_mem_nil, or_false] at hp
    rcases hp with h|h|h|h|h|h|h|h|h|h|h|h <;> rw [h] <;> simp [requestAttrKeys]

theorem underlying_failure_propagation_witness :
    instrumented_create false sampleFailing [] sampleKwargs =
      { result := .error (.exc (.str "boom")),
        spans := [⟨spanName, requestAttrsD sampleKwargs⟩], calls := [([], sampleKwargs)] } ∧
    ∀ p ∈ requestAttrsD sampleKwargs, p.1 ∈ requestAttrKeys :=
  underlying_failure_propagation (by decide) rfl

/-- C7.  Required request fields: for every non-suppressed invocation whose
keyword arguments lack `model` or lack `messages`, the wrapper fails with
the key-lookup error for that key, which propagates unchanged to the
caller, and the underlying callable is never invoked. -/
theorem required_request_fields
    {wrapped : PyCallable} {args : List Val} {kwargs : Kwargs}
    (h : kwLookup kwargs "model" = none ∨ kwLookup kwargs "messages" = none) :
    (∃ k, (k = "model" ∨ k = "messages") ∧ kwLookup kwargs k = none ∧
      (instrumented_create false wrapped args kwargs).result
        = Except.error (.keyError k)) ∧
    (instrumented_create false wrapped args kwargs).calls = [] := by
  cases hm : kwLookup kwargs "model" with
  | none =>
    refine ⟨⟨"model", Or.inl rfl, hm, ?_⟩, ?_⟩ <;>
      simp [instrumented_create, requestComputations, setAttrs, kwGet, hm,
        Except.map, Functor.map, Bind.bind, Except.bind, Pure.pure, Except.pure]
  | some m =>
    have hmsg : kwLookup kwargs "messages" = none := by
      rcases h with h | h
      · rw [h] at hm; cases hm
      · exact h
    refine ⟨⟨"messages", Or.inr rfl, hmsg, ?_⟩, ?_⟩ <;>
      simp [instrumented_create, requestComputations, setAttrs, kwGet, kwGetD, hm, hmsg,
        Except.map, Functor.map, Bind.bind, Except.bind, Pure.pure, Except.pure]

theorem required_request_fields_witness :
    (∃ k, (k = "model" ∨ k = "messages") ∧
      kwLookup [(("model", Val.str "gpt-4") : String × Val)] k = none ∧
      (instrumented_create false sampleWrapped []
        [("model", Val.str "gpt-4")]).result = Except.error (.keyError k)) ∧
    (instrumented_create false sampleWrapped [] [("model", Val.str "gpt-4")]).calls = [] :=
  required_request_fields (Or.inr rfl)

/-- C8.  Required response fields: for every non-suppressed valid invocation
where the underlying callable returns a response on which the response-side
projection raises — some required field absent (`KeyError`) or a component
of the wrong shape (`TypeError`), never an exception of the callable — that
failure propagates to the caller, so the real response value is not returned
even though the underlying call was made and succeeded.  A response whose
`choices` is a present but empty iterable (empty string or empty dict) is
NOT in this domain: the loop then runs zero times, the projection succeeds,
and the response is returned (the C1 regime). -/
theorem required_response_fields
    {wrapped : PyCallable} {args : List Val} {kwargs : Kwargs} {resp : Val}
    (hkw : validKwargs kwargs = true)
    (hcall : wrapped args kwargs = Except.ok resp)
    (hresp : validResponse resp = false) :
    (∃ e, (instrumented_create false wrapped args kwargs).result = Except.error e ∧
      lookupErr e = true) ∧
    (∀ v, (instrumented_create false wrapped args kwargs).result ≠ Except.ok v) ∧
    (instrumented_create false wrapped args kwargs).calls = [(args, kwargs)] := by
  cases hr : (setAttrs (responseComputations resp)).2 with
  | none =>
    exfalso
    rw [response_err_none_iff] at hr
    rw [hr] at hresp
    cases hresp
  | some e =>
    rw [create_unfold hkw, hcall]
    refine ⟨⟨e, ?_, respComp_err (setAttrs_err_mem hr)⟩, ?_, ?_⟩ <;> simp [hr]

theorem required_response_fields_witness :
    (∃ e, (instrumented_create false sampleBadWrapped [] sampleKwargs).result
        = Except.error e ∧ lookupErr e = true) ∧
    (∀ v, (instrumented_create false sampleBadWrapped [] sampleKwargs).result
        ≠ Except.ok v) ∧
    (instrumented_create false sampleBadWrapped [] sampleKwargs).calls
        = [([], sampleKwargs)] :=
  required_response_fields (by decide) rfl (by decide)

/-- C9.  Instrument/uninstrument round-trip: after `instrument()` followed by
`uninstrument()`, a call through the method slot behaves identically to the
never-instrumented original — same observable outcome, in particular the
same return value and no span emitted.  (The wrapping primitive itself —
`wrapt.wrap_function_wrapper` / `unwrap` — is external to the repository and
modelled from the spec.) -/
theorem instrument_uninstrument_roundtrip (f : PyCallable) (suppressed : Bool)
    (args : List Val) (kwargs : Kwargs) :
    (currentMethod (uninstrument (instrument_chat (initSlot f)))).run suppressed args kwargs
      = (currentMethod (initSlot f)).run suppressed args kwargs ∧
    ((currentMethod (uninstrument (instrument_chat (initSlot f)))).run
        suppressed args kwargs).spans = [] ∧
    ((currentMethod (uninstrument (instrument_chat (initSlot f)))).run
        suppressed args kwargs).result = (f args kwargs).map some :=
  ⟨rfl, rfl, rfl⟩

/-- C10.  The request projection reads only keyword arguments: a call whose
`model` and `messages` travel positionally in `args` succeeds uninstrumented
(the underlying callable accepts it), but the instrumented call raises
`KeyError("model")` before ever invoking the underlying callable. -/
theorem positional_args_break_transparency :
    (origMethod sampleAcceptAll).run false samplePosArgs []
      = { result := .ok (some (.str "ok")), spans := [],
          calls := [(samplePosArgs, [])] } ∧
    instrumented_create false sampleAcceptAll samplePosArgs []
      = { result := .error (.keyError "model"), spans := [⟨spanName, []⟩],
          calls := [] } :=
  ⟨rfl, rfl⟩

end OpenAIInstrumentation
